import Mathlib

/-!
Verification of the `lazydata` interactive query workspace.

This file gives a shallow embedding of the two core components of the
repository — the paginated result-grid model (`src/layout/data_table.rs`)
and the modal query editor (`src/layout/query_editor.rs`, dispatched by
`src/app.rs`) — and proves the frozen claims about them.

Machine integers are modelled as `Nat`/`Int` with explicit two's-complement
wrapping (`% 2 ^ 16` etc.) exactly where the Rust source performs `as`
casts or fixed-width arithmetic.  Fallible operations return `Option`.
Strings are manipulated through their character lists (`String.data`),
which is faithful for the concrete ASCII inputs used throughout.
-/

set_option maxRecDepth 4000

namespace LazyData

/-! ### 16-bit machine arithmetic

`DynamicData::adjust_column_width` mixes `u16` widths with an `i16` delta
via `as` casts.  We model the values as `Nat` (`u16`: intended range
`[0, 2^16)`) and `Int` (`i16`: range `[-2^15, 2^15)`), with the casts made
explicit.  `as`-casts between fixed-width integers truncate / reinterpret
bits in Rust; overflow of `i16` addition wraps (release-profile semantics).
-/

/-- Two's-complement wrap of an integer into the `i16` range
`[-32768, 32768)`; models both `u16 as i16` reinterpretation (for inputs
in `[0, 2^16)`) and wrapping `i16` addition. -/
def wrapI16 (x : Int) : Int := (x + 32768) % 65536 - 32768

/-- Rust `i16 as u16` bit reinterpretation: the unique value in `[0, 2^16)`
congruent to `x` modulo `2^16`. -/
def u16OfI16 (x : Int) : Nat := (x % 65536).toNat

theorem wrapI16_lb (x : Int) : -32768 ≤ wrapI16 x := by
  have := Int.emod_nonneg (x + 32768) (by norm_num : (65536 : Int) ≠ 0)
  unfold wrapI16; omega

theorem wrapI16_ub (x : Int) : wrapI16 x < 32768 := by
  have := Int.emod_lt_of_pos (x + 32768) (by norm_num : (0 : Int) < 65536)
  unfold wrapI16; omega

theorem wrapI16_of_range (x : Int) (h1 : -32768 ≤ x) (h2 : x < 32768) :
    wrapI16 x = x := by
  unfold wrapI16
  rw [Int.emod_eq_of_lt (by omega) (by omega)]
  omega

theorem u16OfI16_of_range (x : Int) (h1 : 0 ≤ x) (h2 : x < 65536) :
    (u16OfI16 x : Int) = x := by
  unfold u16OfI16
  rw [Int.emod_eq_of_lt (by omega) (by omega)]
  exact Int.toNat_of_nonneg h1

/-! ### External widget state (`ratatui`)

The grid keeps a `ratatui::widgets::TableState` and two `ScrollbarState`s.
These are plain data holders from the rendering library; their mutating
methods used by the grid are reproduced here from the library's semantics
(`select` resets the offset when clearing, `select_next_column` /
`select_previous_column` saturate at `0` / `usize::MAX`). -/

/-- Rust `usize::MAX` on a 64-bit target. -/
def USIZE_MAX : Nat := 2 ^ 64 - 1

/-- Model of `ratatui::widgets::TableState`. -/
structure TableState where
  offset : Nat
  selected : Option Nat
  selected_column : Option Nat
deriving DecidableEq

/-- Rust `TableState::default().with_selected(sel)`. -/
def TableState.withSelected (sel : Option Nat) : TableState :=
  { offset := 0, selected := sel, selected_column := none }

/-- Rust `TableState::select`: stores the row index; clearing the selection also
resets the display offset. -/
def TableState.select (s : TableState) (idx : Option Nat) : TableState :=
  { s with selected := idx, offset := if idx.isNone then 0 else s.offset }

/-- Rust `TableState::select_next_column`: next column, or column 0 if none was
selected (saturating add). -/
def TableState.select_next_column (s : TableState) : TableState :=
  let next := match s.selected_column with
    | some i => min (i + 1) USIZE_MAX
    | none => 0
  { s with selected_column := some next }

/-- Rust `TableState::select_previous_column`: previous column (saturating sub),
or `usize::MAX` if none was selected. -/
def TableState.select_previous_column (s : TableState) : TableState :=
  let previous := match s.selected_column with
    | some i => i - 1
    | none => USIZE_MAX
  { s with selected_column := some previous }

/-- Model of `ratatui::widgets::ScrollbarState`. -/
structure ScrollbarState where
  content_length : Nat
  position : Nat
  viewport_content_length : Nat
deriving DecidableEq

/-- Rust `ScrollbarState::new`. -/
def ScrollbarState.new (c : Nat) : ScrollbarState :=
  { content_length := c, position := 0, viewport_content_length := 0 }

/-- Rust `ScrollbarState::position`. -/
def ScrollbarState.setPosition (s : ScrollbarState) (p : Nat) : ScrollbarState :=
  { s with position := p }

/-- Rust `ScrollbarState::content_length`. -/
def ScrollbarState.setContentLength (s : ScrollbarState) (c : Nat) : ScrollbarState :=
  { s with content_length := c }

/-! ### `DynamicData` (`src/layout/data_table.rs`, lines 59–124) -/

/-- Display width of a string (`unicode_width::UnicodeWidthStr::width`);
for the ASCII data handled here it is the character count. -/
def strWidth (s : String) : Nat := s.data.length

/-- Rust `DynamicData`: the loaded result set plus per-column display widths and
their content-derived minimums (`u16` values, modelled as `Nat < 2^16`). -/
structure DynamicData where
  headers : List String
  rows : List (List String)
  column_widths : List Nat
  min_column_widths : List Nat
deriving DecidableEq

namespace DynamicData

/-- Rust `DynamicData::calculate_column_widths`: start from the header widths,
take the max with every cell width (cells beyond the header count are
ignored), then add 2 padding (saturating at `u16::MAX`) and floor at 3. -/
def calculate_column_widths (headers : List String) (rows : List (List String)) :
    List Nat :=
  let widths := headers.map (fun h => strWidth h % 65536)
  let widths := rows.foldl
    (fun ws row =>
      row.enum.foldl
        (fun ws p =>
          if p.1 < ws.length then ws.set p.1 (max (ws.getD p.1 0) (strWidth p.2 % 65536))
          else ws)
        ws)
    widths
  widths.map (fun w => max (min (w + 2) 65535) 3)

/-- Rust `DynamicData::new`. -/
def new (headers : List String) (rows : List (List String)) : DynamicData :=
  let column_widths := calculate_column_widths headers rows
  { headers := headers
    rows := rows
    column_widths := column_widths
    min_column_widths := column_widths }

/-- Rust `DynamicData::from_query_results` simply delegates to `new`. -/
def from_query_results (headers : List String) (rows : List (List String)) :
    DynamicData :=
  new headers rows

/-- Rust `DynamicData::len`. -/
def len (d : DynamicData) : Nat := d.rows.length

/-- Rust `DynamicData::is_empty`: empty rows *or* empty headers. -/
def is_empty (d : DynamicData) : Bool := d.rows.isEmpty || d.headers.isEmpty

/-- Rust `DynamicData::adjust_column_width`: in-range column gets
`column_widths[column] = max(column_widths[column] as i16 + delta, min_width as i16) as u16`.
The source indexes `min_column_widths[column]`, relying on the two width
lists having equal length (true for every value built by `new`); the model
reads it with default 0. -/
def adjust_column_width (d : DynamicData) (column : Nat) (delta : Int) : DynamicData :=
  if column < d.column_widths.length then
    let min_width := d.min_column_widths.getD column 0
    let new_width := wrapI16 (wrapI16 (d.column_widths.getD column 0) + delta)
    { d with column_widths :=
        d.column_widths.set column (u16OfI16 (max new_width (wrapI16 min_width))) }
  else d

end DynamicData

/-! ### `DataTable` (`src/layout/data_table.rs`, lines 126–416)

Fields that are pure rendering style (`colors`, `color_index`) or metadata
never touched by the operations under study (`status_message`, `elapsed`)
are carried where the constructor sets them and omitted where they are
irrelevant to every claim; `tabs` is reduced to its selected index. -/

def ITEM_HEIGHT : Nat := 3

structure DataTable where
  state : TableState
  data : DynamicData
  vertical_scroll_state : ScrollbarState
  horizontal_scroll_state : ScrollbarState
  horizontal_scroll : Nat
  tabs_index : Nat
  status_message : Option String
  page_size : Nat
  current_page : Nat
deriving DecidableEq

namespace DataTable

/-- Rust `DataTable::new` (lines 142–170).  The horizontal scrollbar length is a
`u16` sum of the column widths (wrapping, modelled `% 2^16`) minus one,
saturating at zero. -/
def new (headers : List String) (rows : List (List String)) : DataTable :=
  let data := DynamicData.from_query_results headers rows
  { state := TableState.withSelected (if data.is_empty then none else some 0)
    data := data
    vertical_scroll_state :=
      ScrollbarState.new ((min data.rows.length 100 - 1) * ITEM_HEIGHT)
    horizontal_scroll_state :=
      ScrollbarState.new (data.column_widths.foldl (fun a w => (a + w) % 65536) 0 - 1)
    horizontal_scroll := 0
    tabs_index := if data.is_empty then 1 else 0
    status_message := none
    page_size := 100
    current_page := 0 }

/-- Rust `DataTable::is_empty`. -/
def is_empty (dt : DataTable) : Bool := dt.data.is_empty

/-- Rust `DataTable::total_pages` (lines 176–181): 1 for an empty result set,
else `(len as f64 / page_size as f64).ceil() as usize`.  The `f64`
computation is exact ceiling division for every row count below `2^52`,
which we render as `(len + page_size - 1) / page_size`. -/
def total_pages (dt : DataTable) : Nat :=
  if dt.data.is_empty then 1
  else (dt.data.len + dt.page_size - 1) / dt.page_size

/-- Rust `DataTable::get_current_page_rows`: the slice
`rows[page*page_size .. min((page+1)*page_size, len)]`. -/
def get_current_page_rows (dt : DataTable) : List (List String) :=
  (dt.data.rows.drop (dt.current_page * dt.page_size)).take dt.page_size

/-- Rust `DataTable::next_row` (lines 189–202). -/
def next_row (dt : DataTable) : DataTable :=
  if dt.is_empty then dt
  else
    let current_page_rows_len := dt.get_current_page_rows.length
    let i := match dt.state.selected with
      | some i => if current_page_rows_len - 1 ≤ i then 0 else i + 1
      | none => 0
    { dt with
      state := dt.state.select (some i)
      vertical_scroll_state := dt.vertical_scroll_state.setPosition (i * ITEM_HEIGHT) }

/-- Rust `DataTable::previous_row` (lines 204–217). -/
def previous_row (dt : DataTable) : DataTable :=
  if dt.data.is_empty then dt
  else
    let current_page_rows_len := dt.get_current_page_rows.length
    let i := match dt.state.selected with
      | some 0 => current_page_rows_len - 1
      | some i => i - 1
      | none => 0
    { dt with
      state := dt.state.select (some i)
      vertical_scroll_state := dt.vertical_scroll_state.setPosition (i * ITEM_HEIGHT) }

/-- Rust `DataTable::next_column` (lines 219–221). -/
def next_column (dt : DataTable) : DataTable :=
  { dt with state := dt.state.select_next_column }

/-- Rust `DataTable::previous_column` (lines 223–225). -/
def previous_column (dt : DataTable) : DataTable :=
  { dt with state := dt.state.select_previous_column }

/-- Rust `DataTable::scroll_right` (lines 227–234). -/
def scroll_right (dt : DataTable) : DataTable :=
  if dt.horizontal_scroll < dt.data.column_widths.length - 1 then
    let h := dt.horizontal_scroll + 1
    { dt with
      horizontal_scroll := h
      horizontal_scroll_state := dt.horizontal_scroll_state.setPosition h }
  else dt

/-- Rust `DataTable::scroll_left` (lines 236–243). -/
def scroll_left (dt : DataTable) : DataTable :=
  if 0 < dt.horizontal_scroll then
    let h := dt.horizontal_scroll - 1
    { dt with
      horizontal_scroll := h
      horizontal_scroll_state := dt.horizontal_scroll_state.setPosition h }
  else dt

/-- Rust `DataTable::next_page` (lines 245–254). -/
def next_page (dt : DataTable) : DataTable :=
  if dt.current_page < dt.total_pages - 1 then
    let dt := { dt with current_page := dt.current_page + 1 }
    let dt := { dt with state := dt.state.select (some 0) }
    let dt := { dt with vertical_scroll_state :=
      ScrollbarState.new ((dt.get_current_page_rows.length - 1) * ITEM_HEIGHT) }
    { dt with vertical_scroll_state := dt.vertical_scroll_state.setPosition 0 }
  else dt

/-- Rust `DataTable::previous_page` (lines 256–265). -/
def previous_page (dt : DataTable) : DataTable :=
  if 0 < dt.current_page then
    let dt := { dt with current_page := dt.current_page - 1 }
    let dt := { dt with state := dt.state.select (some 0) }
    let dt := { dt with vertical_scroll_state :=
      ScrollbarState.new ((dt.get_current_page_rows.length - 1) * ITEM_HEIGHT) }
    { dt with vertical_scroll_state := dt.vertical_scroll_state.setPosition 0 }
  else dt

/-- Rust `DataTable::jump_to_absolute_row` (lines 280–301). -/
def jump_to_absolute_row (dt : DataTable) (absolute_row : Nat) : DataTable :=
  if dt.data.is_empty then dt
  else
    let total_rows := dt.data.len
    let target_absolute_row := min absolute_row (total_rows - 1)
    let target_page := target_absolute_row / dt.page_size
    let dt := { dt with current_page := target_page }
    let row_on_page := target_absolute_row % dt.page_size
    let dt := { dt with state := dt.state.select (some row_on_page) }
    let dt := { dt with vertical_scroll_state :=
      ScrollbarState.new ((dt.get_current_page_rows.length - 1) * ITEM_HEIGHT) }
    { dt with vertical_scroll_state :=
      dt.vertical_scroll_state.setPosition (row_on_page * ITEM_HEIGHT) }

/-- Rust `DataTable::copy_selected_cell` (lines 339–362).  The `&self` receiver
cannot mutate the grid, so the model returns the unchanged state together
with the optional copied text and the list of clipboard writes attempted
(best-effort `Clipboard::set_text`). -/
def copy_selected_cell (dt : DataTable) : DataTable × Option String × List String :=
  match dt.state.selected, dt.state.selected_column with
  | some row_idx_on_page, some col_idx =>
    let absolute_row_idx := dt.current_page * dt.page_size + row_idx_on_page
    let adjusted_col := col_idx - 1 + dt.horizontal_scroll
    match dt.data.rows.get? absolute_row_idx with
    | none => (dt, none, [])
    | some row =>
      if col_idx = 0 then
        let content := Nat.repr (absolute_row_idx + 1)
        (dt, some content, [content])
      else if h : adjusted_col < row.length then
        let content := row.get ⟨adjusted_col, h⟩
        (dt, some content, [content])
      else (dt, none, [])
  | _, _ => (dt, none, [])

/-- JSON encoding of one cell for `copy_selected_row`: the literal text,
except that a case-insensitive `"null"` / `"[null]"` becomes a JSON null. -/
def cellJson (cell : String) : String :=
  if cell.toLower = "null" ∨ cell.toLower = "[null]" then "null"
  else "\x22" ++ cell ++ "\x22"

/-- Serialization used by `copy_selected_row` (`serde_json::to_string_pretty`
over a `HashMap`, whose iteration order is unspecified; the model fixes the
header order).  No claim depends on the exact text. -/
def rowJson (headers : List String) (row : List String) : String :=
  "\x7b" ++ String.intercalate ","
    ((headers.zip row).map (fun p => "\x22" ++ p.1 ++ "\x22:" ++ cellJson p.2)) ++ "\x7d"

/-- Rust `DataTable::copy_selected_row` (lines 364–410): `&self` receiver, so the
state is returned unchanged; result is the optional JSON text plus the
clipboard writes attempted.  On a header/row arity mismatch it reports via
`eprintln!` and returns `None` before any clipboard access. -/
def copy_selected_row (dt : DataTable) : DataTable × Option String × List String :=
  match dt.state.selected with
  | none => (dt, none, [])
  | some selected_row_index_on_page =>
    let absolute := dt.current_page * dt.page_size + selected_row_index_on_page
    match dt.data.rows.get? absolute with
    | none => (dt, none, [])
    | some row_data =>
      if dt.data.headers.length ≠ row_data.length then (dt, none, [])
      else
        let json := rowJson dt.data.headers row_data
        (dt, some json, [json])

/-- Rust `DataTable::adjust_column_width` (lines 412–416): only acts when a
column is selected, passing the *raw* selected column index through to
`DynamicData::adjust_column_width`. -/
def adjust_column_width (dt : DataTable) (delta : Int) : DataTable :=
  match dt.state.selected_column with
  | some col => { dt with data := dt.data.adjust_column_width col delta }
  | none => dt

/-- The absolute 1-based row number the renderer shows in the leading `#`
column for on-page row `i` (`render_table`, line 584:
`current_page * page_size + i + 1`). -/
def render_absolute_row_number (dt : DataTable) (i : Nat) : Nat :=
  dt.current_page * dt.page_size + i + 1

end DataTable

/-! ### The text buffer (external `tui_textarea::TextArea` widget)

Modelled from the spec: the editor delegates its buffer/cursor/selection
primitives to the external `tui_textarea` widget, which §3/§9 of the spec
specify as a self-contained TextBuffer abstract data type (ordered lines,
cursor `(row, col)`, optional selection anchor, yank buffer, history).
The operations used by `QueryEditor::handle_keys` are reproduced here from
that contract; strings are manipulated through their character lists. -/

/-- Key chords delivered by the terminal (`tui_textarea::Key`), restricted
to the variants the dispatch logic distinguishes; every other key behaves
as an unmatched chord. -/
inductive Key where
  | char (c : Char)
  | esc
  | enter
  | backspace
  | tab
  | null
deriving DecidableEq

/-- Rust `tui_textarea::Input`: a key with modifier flags. -/
structure Input where
  key : Key
  ctrl : Bool
  alt : Bool
  shift : Bool
deriving DecidableEq

/-- Rust `Input::default()`: the null key with no modifiers. -/
def Input.default : Input := ⟨.null, false, false, false⟩

/-- Modelled from the spec: the TextBuffer state of the external widget.
`lines` is always non-empty in reachable states; `cursor` is `(row, col)`;
`selection_start` is the anchor while a selection is active; `yank` holds
the last yanked/cut text as lines; `history`/`redoStack` back the
undo/redo operations as whole-buffer snapshots. -/
structure TextArea where
  lines : List String
  cursor : Nat × Nat
  selection_start : Option (Nat × Nat)
  yank : List String
  history : List (List String × (Nat × Nat))
  redoStack : List (List String × (Nat × Nat))
deriving DecidableEq

/-- Rust `TextArea::default()`: one empty line. -/
def TextArea.default : TextArea := ⟨[""], (0, 0), none, [""], [], []⟩

namespace TextArea

/-- The line at row `r` (empty beyond the buffer). -/
def lineAt (ta : TextArea) (r : Nat) : String := ta.lines.getD r ""

/-- Character length of the line at row `r`. -/
def lineLen (ta : TextArea) (r : Nat) : Nat := (ta.lineAt r).data.length

/-- Record the current buffer in the undo history (clears the redo stack),
as the widget does before every text mutation. -/
def pushHistory (ta : TextArea) : TextArea :=
  { ta with history := (ta.lines, ta.cursor) :: ta.history, redoStack := [] }

/-- Rust `CursorMove::Head`: column 0 of the current line. -/
def moveHead (ta : TextArea) : TextArea :=
  { ta with cursor := (ta.cursor.1, 0) }

/-- Rust `CursorMove::End`: end of the current line. -/
def moveEnd (ta : TextArea) : TextArea :=
  { ta with cursor := (ta.cursor.1, ta.lineLen ta.cursor.1) }

/-- Rust `CursorMove::Top`: first line, column clamped to its length. -/
def moveTop (ta : TextArea) : TextArea :=
  { ta with cursor := (0, min ta.cursor.2 (ta.lineLen 0)) }

/-- Rust `CursorMove::Bottom`: last line, column clamped to its length. -/
def moveBottom (ta : TextArea) : TextArea :=
  let r := ta.lines.length - 1
  { ta with cursor := (r, min ta.cursor.2 (ta.lineLen r)) }

/-- Rust `CursorMove::Up`: previous line (no-op on the first line), column
clamped. -/
def moveUp (ta : TextArea) : TextArea :=
  if 0 < ta.cursor.1 then
    let r := ta.cursor.1 - 1
    { ta with cursor := (r, min ta.cursor.2 (ta.lineLen r)) }
  else ta

/-- Rust `CursorMove::Down`: next line (no-op on the last line), column
clamped.  `handle_keys` relies on the no-op case to detect the last
line. -/
def moveDown (ta : TextArea) : TextArea :=
  if ta.cursor.1 + 1 < ta.lines.length then
    let r := ta.cursor.1 + 1
    { ta with cursor := (r, min ta.cursor.2 (ta.lineLen r)) }
  else ta

/-- Rust `CursorMove::Forward`: one character forward, wrapping to the head of
the next line at end of line. -/
def moveForward (ta : TextArea) : TextArea :=
  if ta.cursor.2 < ta.lineLen ta.cursor.1 then
    { ta with cursor := (ta.cursor.1, ta.cursor.2 + 1) }
  else if ta.cursor.1 + 1 < ta.lines.length then
    { ta with cursor := (ta.cursor.1 + 1, 0) }
  else ta

/-- Rust `CursorMove::Back`: one character back, wrapping to the end of the
previous line at the head of a line. -/
def moveBack (ta : TextArea) : TextArea :=
  if 0 < ta.cursor.2 then
    { ta with cursor := (ta.cursor.1, ta.cursor.2 - 1) }
  else if 0 < ta.cursor.1 then
    { ta with cursor := (ta.cursor.1 - 1, ta.lineLen (ta.cursor.1 - 1)) }
  else ta

/-- Length of the leading run of characters satisfying `p`. -/
def spanLen (p : Char → Bool) (l : List Char) : Nat := (l.takeWhile p).length

/-- Modelled from the spec: `CursorMove::WordForward` (space-delimited
word model; no claim depends on the exact word boundaries). -/
def moveWordForward (ta : TextArea) : TextArea :=
  let cs := (ta.lineAt ta.cursor.1).data.drop ta.cursor.2
  let step := spanLen (fun ch => !ch.isWhitespace) cs +
    spanLen (fun ch => ch.isWhitespace) (cs.drop (spanLen (fun ch => !ch.isWhitespace) cs))
  let c := ta.cursor.2 + step
  if c < ta.lineLen ta.cursor.1 then { ta with cursor := (ta.cursor.1, c) }
  else if ta.cursor.1 + 1 < ta.lines.length then
    { ta with cursor := (ta.cursor.1 + 1, 0) }
  else { ta with cursor := (ta.cursor.1, ta.lineLen ta.cursor.1) }

/-- Modelled from the spec: `CursorMove::WordEnd` (space-delimited). -/
def moveWordEnd (ta : TextArea) : TextArea :=
  let cs := (ta.lineAt ta.cursor.1).data.drop (ta.cursor.2 + 1)
  let step := spanLen (fun ch => ch.isWhitespace) cs +
    spanLen (fun ch => !ch.isWhitespace) (cs.drop (spanLen (fun ch => ch.isWhitespace) cs))
  { ta with cursor := (ta.cursor.1, min (ta.cursor.2 + step) (ta.lineLen ta.cursor.1)) }

/-- Modelled from the spec: `CursorMove::WordBack` (space-delimited). -/
def moveWordBack (ta : TextArea) : TextArea :=
  let cs := ((ta.lineAt ta.cursor.1).data.take ta.cursor.2).reverse
  let step := spanLen (fun ch => ch.isWhitespace) cs +
    spanLen (fun ch => !ch.isWhitespace) (cs.drop (spanLen (fun ch => ch.isWhitespace) cs))
  { ta with cursor := (ta.cursor.1, ta.cursor.2 - step) }

/-- Rust `start_selection`: anchor a selection at the cursor. -/
def start_selection (ta : TextArea) : TextArea :=
  { ta with selection_start := some ta.cursor }

/-- Rust `cancel_selection`. -/
def cancel_selection (ta : TextArea) : TextArea :=
  { ta with selection_start := none }

/-- Lexicographic order on `(row, col)` positions. -/
def posLe (a b : Nat × Nat) : Bool :=
  a.1 < b.1 || (a.1 = b.1 && a.2 ≤ b.2)

/-- The buffer text strictly between positions `s ≤ e` removed. -/
def deleteRange (lines : List String) (s e : Nat × Nat) : List String :=
  if s.1 = e.1 then
    lines.set s.1
      (String.mk (((lines.getD s.1 "").data.take s.2) ++ ((lines.getD s.1 "").data.drop e.2)))
  else
    lines.take s.1 ++
      [String.mk (((lines.getD s.1 "").data.take s.2) ++ ((lines.getD e.1 "").data.drop e.2))] ++
      lines.drop (e.1 + 1)

/-- The buffer text between positions `s ≤ e`, as lines. -/
def extractRange (lines : List String) (s e : Nat × Nat) : List String :=
  if s.1 = e.1 then
    [String.mk (((lines.getD s.1 "").data.take e.2).drop s.2)]
  else
    [String.mk ((lines.getD s.1 "").data.drop s.2)] ++
      ((lines.drop (s.1 + 1)).take (e.1 - s.1 - 1)) ++
      [String.mk ((lines.getD e.1 "").data.take e.2)]

/-- Rust `copy`: yank the selected span (if any) and cancel the selection; the
cursor does not move. -/
def copy (ta : TextArea) : TextArea :=
  match ta.selection_start with
  | none => ta
  | some anchor =>
    let s := if posLe anchor ta.cursor then anchor else ta.cursor
    let e := if posLe anchor ta.cursor then ta.cursor else anchor
    { ta with yank := extractRange ta.lines s e, selection_start := none }

/-- Rust `cut`: delete the selected span, yank it, move the cursor to the start
of the span and cancel the selection; with no span selected nothing is
deleted. -/
def cut (ta : TextArea) : TextArea :=
  match ta.selection_start with
  | none => ta
  | some anchor =>
    if anchor = ta.cursor then { ta with selection_start := none }
    else
      let s := if posLe anchor ta.cursor then anchor else ta.cursor
      let e := if posLe anchor ta.cursor then ta.cursor else anchor
      let ta' := ta.pushHistory
      { ta' with
        lines := deleteRange ta.lines s e
        cursor := s
        yank := extractRange ta.lines s e
        selection_start := none }

/-- Rust `insert_newline`: split the current line at the cursor. -/
def insert_newline (ta : TextArea) : TextArea :=
  let r := ta.cursor.1
  let c := ta.cursor.2
  let pre := (ta.lineAt r).data.take c
  let post := (ta.lineAt r).data.drop c
  let ta' := ta.pushHistory
  { ta' with
    lines := ta.lines.take r ++ [String.mk pre, String.mk post] ++ ta.lines.drop (r + 1)
    cursor := (r + 1, 0) }

/-- Rust `delete_next_char`: delete the character under the cursor, joining with
the next line when at end of line. -/
def delete_next_char (ta : TextArea) : TextArea :=
  let r := ta.cursor.1
  let c := ta.cursor.2
  if c < ta.lineLen r then
    let ta' := ta.pushHistory
    { ta' with lines :=
        ta.lines.set r (String.mk ((ta.lineAt r).data.take c ++ (ta.lineAt r).data.drop (c + 1))) }
  else if r + 1 < ta.lines.length then
    let ta' := ta.pushHistory
    { ta' with lines :=
        ta.lines.take r ++ [String.mk ((ta.lineAt r).data ++ (ta.lineAt (r + 1)).data)] ++
          ta.lines.drop (r + 2) }
  else ta

/-- Rust `delete_line_by_end`: delete from the cursor to the end of the line
(yanking it), or join with the next line when already at end of line. -/
def delete_line_by_end (ta : TextArea) : TextArea :=
  let r := ta.cursor.1
  let c := ta.cursor.2
  if c < ta.lineLen r then
    let ta' := ta.pushHistory
    { ta' with
      lines := ta.lines.set r (String.mk ((ta.lineAt r).data.take c))
      yank := [String.mk ((ta.lineAt r).data.drop c)] }
  else ta.delete_next_char

/-- Rust `paste`: insert the yank buffer at the cursor. -/
def paste (ta : TextArea) : TextArea :=
  let r := ta.cursor.1
  let c := ta.cursor.2
  let pre := (ta.lineAt r).data.take c
  let post := (ta.lineAt r).data.drop c
  match ta.yank with
  | [] => ta
  | [s] =>
    let ta' := ta.pushHistory
    { ta' with
      lines := ta.lines.set r (String.mk (pre ++ s.data ++ post))
      cursor := (r, c + s.data.length) }
  | first :: rest =>
    let middle := rest.dropLast
    let last := rest.getLastD ""
    let ta' := ta.pushHistory
    { ta' with
      lines := ta.lines.take r ++ [String.mk (pre ++ first.data)] ++ middle ++
        [String.mk (last.data ++ post)] ++ ta.lines.drop (r + 1)
      cursor := (r + rest.length, last.data.length) }

/-- Rust `undo`: restore the most recent history snapshot. -/
def undo (ta : TextArea) : TextArea :=
  match ta.history with
  | [] => ta
  | (ls, cur) :: rest =>
    { ta with
      lines := ls, cursor := cur, selection_start := none
      history := rest, redoStack := (ta.lines, ta.cursor) :: ta.redoStack }

/-- Rust `redo`: re-apply the most recently undone change. -/
def redo (ta : TextArea) : TextArea :=
  match ta.redoStack with
  | [] => ta
  | (ls, cur) :: rest =>
    { ta with
      lines := ls, cursor := cur, selection_start := none
      redoStack := rest, history := (ta.lines, ta.cursor) :: ta.history }

/-- Rust `scroll`: moves only the render viewport, which is not part of the
modelled state. -/
def scroll (ta : TextArea) : TextArea := ta

/-- Rust `input` (Insert mode): printable characters are inserted verbatim at
the cursor; Enter splits the line; Backspace deletes backwards; everything
else is ignored (spec §4.1). -/
def input (ta : TextArea) (inp : Input) : TextArea :=
  let r := ta.cursor.1
  let c := ta.cursor.2
  match inp.key with
  | .char ch =>
    if inp.ctrl then ta
    else
      let ta' := ta.pushHistory
      { ta' with
        lines := ta.lines.set r
          (String.mk ((ta.lineAt r).data.take c ++ [ch] ++ (ta.lineAt r).data.drop c))
        cursor := (r, c + 1) }
  | .enter => ta.insert_newline
  | .backspace =>
    if 0 < c then
      let ta' := ta.pushHistory
      { ta' with
        lines := ta.lines.set r
          (String.mk ((ta.lineAt r).data.take (c - 1) ++ (ta.lineAt r).data.drop c))
        cursor := (r, c - 1) }
    else if 0 < r then
      let ta' := ta.pushHistory
      { ta' with
        lines := ta.lines.take (r - 1) ++
          [String.mk ((ta.lineAt (r - 1)).data ++ (ta.lineAt r).data)] ++ ta.lines.drop (r + 1)
        cursor := (r - 1, ta.lineLen (r - 1)) }
    else ta
  | _ => ta

end TextArea

/-! ### `QueryEditor` (`src/layout/query_editor.rs`) -/

/-- Editing mode (`query_editor.rs`, lines 16–22). -/
inductive Mode where
  | Normal
  | Insert
  | Visual
  | Operator (c : Char)
deriving DecidableEq

/-- Rust `Transition` (lines 65–69). -/
inductive Transition where
  | Nop
  | Mode (m : Mode)
  | Pending (input : Input)
deriving DecidableEq

/-- Rust `QueryEditor` (lines 71–75). -/
structure QueryEditor where
  mode : Mode
  pending : Input
  textarea : TextArea
deriving DecidableEq

/-- Rust `QueryEditor::new`. -/
def QueryEditor.new (mode : Mode) : QueryEditor :=
  { mode := mode, pending := Input.default, textarea := TextArea.default }

/-- Does `mode` currently hold a pending operator? -/
def Mode.isOperator : Mode → Bool
  | .Operator _ => true
  | _ => false

namespace QueryEditor

/-- The Normal/Visual/Operator arm chain of `handle_keys` (lines 129–394),
in source order.  Returns the mutated text area and either
`some transition` (an arm that `return`s) or `none` (an arm that falls
through to the pending-operator dispatch at lines 396–411). -/
def normalStep (e : QueryEditor) (inp : Input) : TextArea × Option Transition :=
  let ta := e.textarea
  if inp.key = .char 'h' then (ta.moveBack, none)
  else if inp.key = .char 'j' then (ta.moveDown, none)
  else if inp.key = .char 'k' then (ta.moveUp, none)
  else if inp.key = .char 'l' then (ta.moveForward, none)
  else if inp.key = .char 'w' then (ta.moveWordForward, none)
  else if inp.key = .char 'e' ∧ inp.ctrl = false then
    (if e.mode.isOperator then ta.moveWordEnd.moveForward else ta.moveWordEnd, none)
  else if inp.key = .char 'b' ∧ inp.ctrl = false then (ta.moveWordBack, none)
  else if inp.key = .char '^' then (ta.moveHead, none)
  else if inp.key = .char '$' then (ta.moveEnd, none)
  else if inp.key = .char 'D' then (ta.delete_line_by_end, some (.Mode .Normal))
  else if inp.key = .char 'C' then
    (ta.delete_line_by_end.cancel_selection, some (.Mode .Insert))
  else if inp.key = .char 'p' then (ta.paste, some (.Mode .Normal))
  else if inp.key = .char 'u' ∧ inp.ctrl = false then (ta.undo, some (.Mode .Normal))
  else if inp.key = .char 'r' ∧ inp.ctrl = true then (ta.redo, some (.Mode .Normal))
  else if inp.key = .char 'x' then (ta.delete_next_char, some (.Mode .Normal))
  else if inp.key = .char 'i' then (ta.cancel_selection, some (.Mode .Insert))
  else if inp.key = .char 'a' then (ta.cancel_selection.moveForward, some (.Mode .Insert))
  else if inp.key = .char 'A' then (ta.cancel_selection.moveEnd, some (.Mode .Insert))
  else if inp.key = .char 'o' then (ta.moveEnd.insert_newline, some (.Mode .Insert))
  else if inp.key = .char 'O' then
    (ta.moveHead.insert_newline.moveUp, some (.Mode .Insert))
  else if inp.key = .char 'I' then (ta.cancel_selection.moveHead, some (.Mode .Insert))
  else if inp.key = .char 'e' ∧ inp.ctrl = true then (ta.scroll, none)
  else if inp.key = .char 'y' ∧ inp.ctrl = true then (ta.scroll, none)
  else if inp.key = .char 'd' ∧ inp.ctrl = true then (ta.scroll, none)
  else if inp.key = .char 'u' ∧ inp.ctrl = true then (ta.scroll, none)
  else if inp.key = .char 'f' ∧ inp.ctrl = true then (ta.scroll, none)
  else if inp.key = .char 'b' ∧ inp.ctrl = true then (ta.scroll, none)
  else if inp.key = .char 'v' ∧ inp.ctrl = false ∧ e.mode = .Normal then
    (ta.start_selection, some (.Mode .Visual))
  else if inp.key = .char 'V' ∧ inp.ctrl = false ∧ e.mode = .Normal then
    (ta.moveHead.start_selection.moveEnd, some (.Mode .Visual))
  else if (inp.key = .esc ∨ (inp.key = .char 'v' ∧ inp.ctrl = false)) ∧ e.mode = .Visual then
    (ta.cancel_selection, some (.Mode .Normal))
  else if inp.key = .char 'g' ∧ inp.ctrl = false ∧
      e.pending.key = .char 'g' ∧ e.pending.ctrl = false then
    (ta.moveTop, none)
  else if inp.key = .char 'G' ∧ inp.ctrl = false then (ta.moveBottom, none)
  else if (match e.mode with
           | Mode.Operator c => decide (inp.key = Key.char c ∧ inp.ctrl = false)
           | _ => false) then
    -- Handle yy, dd, cc: select the whole current line (or to end of the
    -- last line), leaving the operator dispatch below to apply it.
    let ta1 := ta.moveHead.start_selection
    let cur := ta1.cursor
    let ta2 := ta1.moveDown
    (if cur = ta2.cursor then ta2.moveEnd else ta2, none)
  else if (inp.key = .char 'y' ∨ inp.key = .char 'd' ∨ inp.key = .char 'c') ∧
      inp.ctrl = false ∧ e.mode = .Normal then
    (ta.start_selection,
     some (.Mode (.Operator (match inp.key with | .char c => c | _ => 'y'))))
  else if inp.key = .char 'y' ∧ inp.ctrl = false ∧ e.mode = .Visual then
    (ta.moveForward.copy, some (.Mode .Normal))
  else if inp.key = .char 'd' ∧ inp.ctrl = false ∧ e.mode = .Visual then
    (ta.moveForward.cut, some (.Mode .Normal))
  else if inp.key = .char 'c' ∧ inp.ctrl = false ∧ e.mode = .Visual then
    (ta.moveForward.cut, some (.Mode .Insert))
  else (ta, some (.Pending inp))

/-- Rust `QueryEditor::handle_keys` (lines 123–426). -/
def handle_keys (e : QueryEditor) (inp : Input) : QueryEditor × Transition :=
  if inp.key = .null then (e, .Nop)
  else
    match e.mode with
    | .Insert =>
      if inp.key = .esc ∨ (inp.key = .char 'c' ∧ inp.ctrl = true) then (e, .Mode .Normal)
      else ({ e with textarea := e.textarea.input inp }, .Mode .Insert)
    | _ =>
      match e.normalStep inp with
      | (ta, some t) => ({ e with textarea := ta }, t)
      | (ta, none) =>
        match e.mode with
        | .Operator c =>
          if c = 'y' then ({ e with textarea := ta.copy }, .Mode .Normal)
          else if c = 'd' then ({ e with textarea := ta.cut }, .Mode .Normal)
          else if c = 'c' then ({ e with textarea := ta.cut }, .Mode .Insert)
          else ({ e with textarea := ta }, .Nop)
        | _ => ({ e with textarea := ta }, .Nop)

end QueryEditor

/-- One editor dispatch of the app event loop (`src/app.rs`, lines
243–253): forward the key to `handle_keys`, then apply the returned
transition — a mode change updates `mode`, an unmatched key updates
`pending`, and `Nop` changes nothing further.  No transition ever clears
`pending`. -/
def appStep (e : QueryEditor) (inp : Input) : QueryEditor :=
  match e.handle_keys inp with
  | (e', .Nop) => e'
  | (e', .Mode m) => { e' with mode := m }
  | (e', .Pending p) => { e' with pending := p }

/-! ### Invariants and auxiliary definitions used by the claims -/

/-- Every column's display width is at least its recorded minimum. -/
def widthInv (d : DynamicData) : Prop :=
  ∀ j w m, d.column_widths.get? j = some w → d.min_column_widths.get? j = some m → m ≤ w

/-- Every recorded minimum width fits in the non-negative `i16` range. -/
def minsSmall (d : DynamicData) : Prop :=
  ∀ j m, d.min_column_widths.get? j = some m → m < 32768

/-- Decimal digits of `n`, most significant first (reference rendering used
to reason about `Nat.repr`). -/
def digitsRec (n : Nat) : List Char :=
  if _h : n < 10 then [Nat.digitChar n]
  else digitsRec (n / 10) ++ [Nat.digitChar (n % 10)]
termination_by n
decreasing_by exact Nat.div_lt_self (by omega) (by omega)

/-- Numeric value of a decimal digit character. -/
def charVal (c : Char) : Nat := c.toNat - 48

/-- Value of a digit string under left-to-right decimal accumulation. -/
def digitsVal (l : List Char) : Nat := l.foldl (fun a c => 10 * a + charVal c) 0

/-! ### Concrete fixtures for witnesses and counterexamples -/

/-- A 250-row single-column result set (page size is 100). -/
def dt250 : DataTable := DataTable.new ["h"] (List.replicate 250 ["x"])

/-- The empty grid (`DataTable::new(vec![], vec![])`, as built at app
startup). -/
def dtEmpty : DataTable := DataTable.new [] []

/-- A grid whose result set has headers but zero rows (e.g. a `SELECT`
matching nothing): `is_empty` holds, yet two column widths exist. -/
def dtHeadersOnly : DataTable := DataTable.new ["a", "b"] []

/-- A grid whose single row has fewer cells than there are headers. -/
def dtMismatch : DataTable := DataTable.new ["a", "b"] [["1"]]

/-- A 3-row grid with the initial selection (row 0). -/
def dt3 : DataTable := DataTable.new ["h"] [["x"], ["y"], ["z"]]

/-- Two data columns of different widths, with the second on-screen data
column selected (two `select_next_column` calls from the initial state). -/
def c9grid : DataTable :=
  ((DataTable.new ["a", "bb"] [["x", "yy"]]).next_column).next_column

/-- Two rows, with the row-number pseudo-column (index 0) selected. -/
def c10grid : DataTable := (DataTable.new ["h"] [["x"], ["y"]]).next_column

/-- A loaded `DynamicData` whose (reachable, e.g. from one 39998-character
cell) minimum width 40000 exceeds `i16::MAX`. -/
def c4data : DynamicData :=
  { headers := ["h"], rows := [], column_widths := [40000], min_column_widths := [40000] }

/-- The key `d` with no modifiers. -/
def inputD : Input := ⟨.char 'd', false, false, false⟩

/-- The key `g` with no modifiers. -/
def inputG : Input := ⟨.char 'g', false, false, false⟩

/-- The key `j` (a matched movement key) with no modifiers. -/
def inputJ : Input := ⟨.char 'j', false, false, false⟩

/-- A Normal-mode editor over three lines with the cursor on line 2 and no
pending chord. -/
def editor0 : QueryEditor :=
  ⟨.Normal, Input.default, ⟨["a", "b", "c"], (1, 0), none, [""], [], []⟩⟩

/-- A Normal-mode editor whose pending chord is `g`. -/
def editorG : QueryEditor :=
  ⟨.Normal, inputG, ⟨["ab", "cd"], (1, 1), none, [""], [], []⟩⟩

/-! ## Claim C1 — `dd` deletes the current line -/

/-- C1: from Normal mode on any 3-line buffer with the cursor on line 2
(index 1), dispatching `d` and then `d` through the app event loop removes
exactly line 2 — the buffer becomes the former lines 1 and 3 unchanged —
and the resulting mode is Normal. -/
theorem dd_removes_current_line (a b c : String) (col : Nat) (p : Input)
    (sel : Option (Nat × Nat)) (y : List String)
    (hist redo : List (List String × (Nat × Nat))) :
    (appStep (appStep ⟨.Normal, p, ⟨[a, b, c], (1, col), sel, y, hist, redo⟩⟩ inputD)
        inputD).textarea.lines = [a, c] ∧
    (appStep (appStep ⟨.Normal, p, ⟨[a, b, c], (1, col), sel, y, hist, redo⟩⟩ inputD)
        inputD).mode = Mode.Normal := by
  constructor <;>
    simp [appStep, QueryEditor.handle_keys, QueryEditor.normalStep, inputD,
      TextArea.start_selection, TextArea.moveHead, TextArea.moveDown, TextArea.moveEnd,
      TextArea.cut, TextArea.lineAt, TextArea.lineLen, TextArea.posLe,
      TextArea.deleteRange, TextArea.extractRange, TextArea.pushHistory]

/-! ## Claim C8 — lifetime of the pending key (corrected)

The claim says the pending key is retained for *exactly one* dispatch
cycle, so that after an intervening matched key a lone `g` is returned as
`AwaitingOperand` again.  In the code, however, only a `Transition::Pending`
result ever updates `pending` (`app.rs` lines 246–252) and nothing clears
it, so a stored `g` survives arbitrarily many matched dispatches. -/

/-- Rust `handle_keys` itself never touches the stored pending chord (only the
caller's transition handling does). -/
theorem handle_keys_preserves_pending (e : QueryEditor) (inp : Input) :
    (e.handle_keys inp).1.pending = e.pending := by
  unfold QueryEditor.handle_keys
  repeat' split <;> try rfl

/-- C8 counterexample: starting from a Normal-mode editor with no pending
chord, dispatch `g`, then the matched movement key `j`, then `g` again.
The claim predicts the final `g` is returned as `Pending` (the stored `g`
having expired after one cycle) with the cursor unmoved; the code instead
still recognises `gg` — the transition is `Nop` and the cursor jumps from
line 3 to the top. -/
theorem pending_key_retention_counterexample :
    (appStep editor0 inputG).pending = inputG ∧
    (appStep (appStep editor0 inputG) inputJ).pending = inputG ∧
    (appStep (appStep editor0 inputG) inputJ).textarea.cursor = (2, 0) ∧
    ((appStep (appStep editor0 inputG) inputJ).handle_keys inputG).2 = Transition.Nop ∧
    (appStep (appStep (appStep editor0 inputG) inputJ) inputG).textarea.cursor = (0, 0) := by
  exact ⟨by decide, by decide, by decide, by decide, by decide⟩

/-- C8 (amended): the pending key is retained until *overwritten* by the
next unmatched dispatch, not for exactly one cycle: in Normal mode a
ctrl-free `g` moves the cursor to the top of the buffer precisely when the
currently stored pending chord is a ctrl-free `g` (otherwise the `g` is
itself returned as the new pending chord with the editor unchanged), and
any dispatch whose transition is not `Pending` — every matched key —
leaves the stored pending chord untouched. -/
theorem pending_key_retained_until_overwritten (e : QueryEditor) (inp : Input)
    (hm : e.mode = Mode.Normal) (hk : inp.key = Key.char 'g') (hc : inp.ctrl = false) :
    ((e.pending.key = Key.char 'g' ∧ e.pending.ctrl = false) →
      e.handle_keys inp = ({ e with textarea := e.textarea.moveTop }, Transition.Nop)) ∧
    (¬ (e.pending.key = Key.char 'g' ∧ e.pending.ctrl = false) →
      e.handle_keys inp = (e, Transition.Pending inp)) ∧
    (∀ (e' : QueryEditor) (inp' : Input),
      (∀ q, (e'.handle_keys inp').2 ≠ Transition.Pending q) →
      (appStep e' inp').pending = e'.pending) := by
  obtain ⟨k, ct, al, sh⟩ := inp
  simp only at hk hc
  subst hk
  subst hc
  obtain ⟨m, pend, ta⟩ := e
  simp only at hm
  subst hm
  refine ⟨?_, ?_, ?_⟩
  · rintro ⟨h1, h2⟩
    obtain ⟨pk, pc, pa, ps⟩ := pend
    simp only at h1 h2
    subst h1
    subst h2
    simp [QueryEditor.handle_keys, QueryEditor.normalStep]
  · intro hng
    simp only at hng
    simp [QueryEditor.handle_keys, QueryEditor.normalStep, hng]
  · intro e' inp' hq
    rcases hh : e'.handle_keys inp' with ⟨e2, t⟩
    have hp : e2.pending = e'.pending := by
      have h2 := handle_keys_preserves_pending e' inp'
      rw [hh] at h2
      exact h2
    cases t with
    | Nop =>
      unfold appStep
      rw [hh]
      exact hp
    | Mode m =>
      unfold appStep
      rw [hh]
      exact hp
    | Pending q =>
      refine absurd ?_ (hq q)
      rw [hh]

/-- C8 witness: a Normal-mode editor whose stored pending chord is `g`
dispatches `g` as `gg` (cursor to top, `Nop` transition). -/
theorem pending_key_retained_until_overwritten_witness :
    editorG.mode = Mode.Normal ∧ inputG.key = Key.char 'g' ∧ inputG.ctrl = false ∧
    (editorG.pending.key = Key.char 'g' ∧ editorG.pending.ctrl = false) ∧
    editorG.handle_keys inputG =
      ({ editorG with textarea := editorG.textarea.moveTop }, Transition.Nop) := by
  have h := pending_key_retained_until_overwritten editorG inputG rfl rfl rfl
  exact ⟨rfl, rfl, rfl, ⟨rfl, rfl⟩, h.1 ⟨rfl, rfl⟩⟩

/-! ## Claim C2 — `jump_to_absolute_row` -/

/-- C2: on a non-empty result set, `jump_to_absolute_row(n)` clamps `n` to
`[0, row_count − 1]` and then sets `current_page` to the clamped value
divided by `page_size` and the row selection on that page to the clamped
value modulo `page_size`. -/
theorem jump_to_absolute_row_spec (dt : DataTable) (n : Nat)
    (hne : dt.data.is_empty = false) (_hps : 0 < dt.page_size) :
    (dt.jump_to_absolute_row n).current_page =
      min n (dt.data.len - 1) / dt.page_size ∧
    (dt.jump_to_absolute_row n).state.selected =
      some (min n (dt.data.len - 1) % dt.page_size) := by
  unfold DataTable.jump_to_absolute_row
  simp [hne, TableState.select]

/-- C2 witness: with 250 rows and page size 100, `jump_to_absolute_row 249`
selects page 2, row 49 on that page. -/
theorem jump_to_absolute_row_spec_witness :
    dt250.data.is_empty = false ∧ 0 < dt250.page_size ∧
    (dt250.jump_to_absolute_row 249).current_page = 2 ∧
    (dt250.jump_to_absolute_row 249).state.selected = some 49 := by
  have h := jump_to_absolute_row_spec dt250 249 (by decide) (by decide)
  exact ⟨by decide, by decide, h.1.trans (by decide), h.2.trans (by decide)⟩

/-! ## Claim C3 — `total_pages` (corrected)

The claim asserts `total_pages() = ⌈row_count / page_size⌉` for *every*
result set "including an empty one"; but the code returns 1 for an empty
set while `⌈0 / 100⌉ = 0`. -/

/-- C3 counterexample: on the empty grid, `total_pages` is 1, not the
ceiling `0 ⌈/⌉ 100 = 0` the claim demands. -/
theorem total_pages_empty_counterexample :
    dtEmpty.total_pages = 1 ∧
    dtEmpty.data.len ⌈/⌉ dtEmpty.page_size = 0 ∧
    ¬ dtEmpty.total_pages = dtEmpty.data.len ⌈/⌉ dtEmpty.page_size := by
  refine ⟨by decide, ?_, ?_⟩ <;>
    simp [Nat.ceilDiv_eq_add_pred_div] <;> decide

/-- C3 (amended): for every *non-empty* result set, `total_pages` is the
ceiling of `row_count / page_size` (equivalently, the least page count
covering all rows); for an empty result set it is 1.  With 250 rows and
page size 100 it is 3 (witness below). -/
theorem total_pages_is_ceil_unless_empty (dt : DataTable)
    (hps : 0 < dt.page_size) :
    (dt.data.is_empty = false →
      dt.total_pages = dt.data.len ⌈/⌉ dt.page_size ∧
      dt.data.len ≤ dt.total_pages * dt.page_size ∧
      dt.total_pages * dt.page_size < dt.data.len + dt.page_size) ∧
    (dt.data.is_empty = true → dt.total_pages = 1) := by
  constructor
  · intro hne
    have hlen : 0 < dt.data.len := by
      unfold DynamicData.is_empty at hne
      simp only [Bool.or_eq_false_iff, List.isEmpty_eq_false] at hne
      have := hne.1
      unfold DynamicData.len
      cases h : dt.data.rows with
      | nil => exact absurd h this
      | cons a l => simp
    have htp : dt.total_pages = (dt.data.len + dt.page_size - 1) / dt.page_size := by
      unfold DataTable.total_pages
      simp [hne]
    refine ⟨by rw [htp, Nat.ceilDiv_eq_add_pred_div], ?_, ?_⟩ <;>
    · rw [htp]
      have hdm := Nat.div_add_mod' (dt.data.len + dt.page_size - 1) dt.page_size
      have hmlt := Nat.mod_lt (dt.data.len + dt.page_size - 1) hps
      omega
  · intro he
    unfold DataTable.total_pages
    simp [he]

/-- C3 witness: the 250-row grid has `total_pages = 3 = 250 ⌈/⌉ 100`. -/
theorem total_pages_is_ceil_unless_empty_witness :
    0 < dt250.page_size ∧ dt250.data.is_empty = false ∧ dt250.total_pages = 3 ∧
    dt250.data.len ⌈/⌉ dt250.page_size = 3 := by
  have h := (total_pages_is_ceil_unless_empty dt250 (by decide)).1 (by decide)
  refine ⟨by decide, by decide, by decide, h.1.symm.trans (by decide)⟩

/-! ## Claim C4 — the minimum-width invariant (corrected)

`adjust_column_width` clamps through `i16` casts.  When a recorded minimum
width fits in `i16` (is `< 32768`) the clamp works and the invariant
`column_widths[i] ≥ min_column_widths[i]` is preserved by any sequence of
calls with any deltas; but a minimum `≥ 32768` (reachable from a cell of
that display width) reinterprets as a negative `i16` and the invariant can
be destroyed. -/

/-- C4 counterexample: widths = mins = `[40000]` satisfies the invariant,
yet a single `adjust_column_width(0, 25536)` drives the width to 0,
far below the recorded minimum 40000. -/
theorem adjust_column_width_minimum_overflow_counterexample :
    widthInv c4data ∧
    (c4data.adjust_column_width 0 25536).column_widths = [0] ∧
    ¬ widthInv (c4data.adjust_column_width 0 25536) := by
  refine ⟨?_, by decide, ?_⟩
  · intro j w m hw hm
    cases j with
    | zero => simp [c4data] at hw hm; omega
    | succ k => simp [c4data] at hw
  · intro h
    have h0 := h 0 0 40000 (by decide) (by decide)
    omega

/-- Single-call preservation: one `adjust_column_width` keeps the invariant
provided every recorded minimum fits in `i16`, and never changes the
minimums. -/
theorem adjust_column_width_step (d : DynamicData) (c : Nat) (δ : Int)
    (hm : minsSmall d) (hinv : widthInv d) :
    widthInv (d.adjust_column_width c δ) ∧
    (d.adjust_column_width c δ).min_column_widths = d.min_column_widths := by
  unfold DynamicData.adjust_column_width
  split
  case isFalse => exact ⟨hinv, rfl⟩
  case isTrue hc =>
    refine ⟨?_, rfl⟩
    intro j w m hw hmj
    by_cases hj : j = c
    · subst hj
      rw [List.get?_set_eq_of_lt _ hc] at hw
      have hmlt : m < 32768 := hm j m hmj
      have hgd : d.min_column_widths.getD j 0 = m := by
        unfold List.getD
        rw [hmj]
        rfl
      rw [hgd] at hw
      have hwm : wrapI16 (m : Int) = (m : Int) := by
        apply wrapI16_of_range <;> omega
      have hub := wrapI16_ub (wrapI16 (d.column_widths.getD j 0) + δ)
      have hlb := wrapI16_lb (wrapI16 (d.column_widths.getD j 0) + δ)
      set x := wrapI16 (wrapI16 (d.column_widths.getD j 0) + δ) with hx
      have hmax1 : (m : Int) ≤ max x (wrapI16 (m : Int)) := by
        rw [hwm]; exact le_max_right _ _
      have hmax2 : max x (wrapI16 (m : Int)) < 65536 := by
        rw [hwm]
        apply max_lt (by omega) (by omega)
      have hmz : (0 : Int) ≤ (m : Int) := by omega
      have hmax0 : 0 ≤ max x (wrapI16 (m : Int)) := le_trans hmz hmax1
      have := u16OfI16_of_range (max x (wrapI16 (m : Int))) hmax0 hmax2
      injection hw with hw
      omega
    · rw [List.get?_set_ne _ _ (fun h => hj h.symm)] at hw
      exact hinv j w m hw hmj

/-- C4 (amended): for every grid state whose recorded minimum widths all
fit in `i16` (`< 32768` — always true for realistic content, and the only
regime in which the `u16 → i16` casts of the source are value-preserving),
every finite sequence of `adjust_column_width` calls with arbitrary deltas
preserves `column_widths[i] ≥ min_column_widths[i]`; likewise for the
selected-column wrapper `DataTable::adjust_column_width`. -/
theorem adjust_column_width_minimum_invariant (d : DynamicData)
    (calls : List (Nat × Int)) (hm : minsSmall d) (hinv : widthInv d) :
    widthInv (calls.foldl (fun d p => d.adjust_column_width p.1 p.2) d) ∧
    (∀ (dt : DataTable) (δ : Int), minsSmall dt.data → widthInv dt.data →
      widthInv (dt.adjust_column_width δ).data) := by
  constructor
  · induction calls generalizing d with
    | nil => exact hinv
    | cons p ps ih =>
      have hstep := adjust_column_width_step d p.1 p.2 hm hinv
      have hm' : minsSmall (d.adjust_column_width p.1 p.2) := by
        intro j m hj
        rw [hstep.2] at hj
        exact hm j m hj
      exact ih _ hm' hstep.1
  · intro dt δ hmd hid
    unfold DataTable.adjust_column_width
    cases hc : dt.state.selected_column with
    | none => simpa using hid
    | some c =>
      simpa using (adjust_column_width_step dt.data c δ hmd hid).1

/-- C4 witness: a small grid with minimum widths below 32768 keeps the
invariant across a mix of positive and (many) negative adjustments. -/
theorem adjust_column_width_minimum_invariant_witness :
    minsSmall (DynamicData.new ["a", "bb"] [["x", "yy"]]) ∧
    widthInv (([(0, (5 : Int)), (1, -100), (0, -100), (1, 7), (0, -1)] :
        List (Nat × Int)).foldl
      (fun d p => d.adjust_column_width p.1 p.2) (DynamicData.new ["a", "bb"] [["x", "yy"]])) := by
  have hmins : (DynamicData.new ["a", "bb"] [["x", "yy"]]).min_column_widths = [3, 4] := by
    decide
  have hwid : (DynamicData.new ["a", "bb"] [["x", "yy"]]).column_widths = [3, 4] := by
    decide
  have hm : minsSmall (DynamicData.new ["a", "bb"] [["x", "yy"]]) := by
    intro j m hj
    rw [hmins] at hj
    match j, hj with
    | 0, hj => simp at hj; omega
    | 1, hj => simp at hj; omega
    | k + 2, hj => simp at hj
  have hinv : widthInv (DynamicData.new ["a", "bb"] [["x", "yy"]]) := by
    intro j w m hw hmj
    rw [hmins] at hmj
    rw [hwid] at hw
    match j, hw, hmj with
    | 0, hw, hmj => simp at hw hmj; omega
    | 1, hw, hmj => simp at hw hmj; omega
    | k + 2, hw, hmj => simp at hw
  exact ⟨hm, (adjust_column_width_minimum_invariant _ _ hm hinv).1⟩

/-! ## Claim C5 — `next_row` / `previous_row` stay on the current page -/

/-- C5: on a non-empty result set with a selected row, `next_row` and
`previous_row` never change the current page (nor the data, the horizontal
scroll, or the column selection); they move the row selection by one within
the current page, `next_row` wrapping from the last page row to row 0 and
`previous_row` wrapping from row 0 to the last page row.  (The page-local
vertical scroll indicator follows the selection.) -/
theorem row_navigation_within_page (dt : DataTable) (i : Nat)
    (hne : dt.data.is_empty = false)
    (hsel : dt.state.selected = some i)
    (hlt : i < dt.get_current_page_rows.length) :
    (dt.next_row.current_page = dt.current_page ∧
     dt.next_row.data = dt.data ∧
     dt.next_row.horizontal_scroll = dt.horizontal_scroll ∧
     dt.next_row.state.selected_column = dt.state.selected_column ∧
     dt.next_row.state.selected =
       some (if i = dt.get_current_page_rows.length - 1 then 0 else i + 1)) ∧
    (dt.previous_row.current_page = dt.current_page ∧
     dt.previous_row.data = dt.data ∧
     dt.previous_row.horizontal_scroll = dt.horizontal_scroll ∧
     dt.previous_row.state.selected_column = dt.state.selected_column ∧
     dt.previous_row.state.selected =
       some (if i = 0 then dt.get_current_page_rows.length - 1 else i - 1)) := by
  constructor
  · refine ⟨?_, ?_, ?_, ?_, ?_⟩ <;>
      simp only [DataTable.next_row, DataTable.is_empty, hne, Bool.false_eq_true,
        if_false, hsel, TableState.select]
    congr 1
    split_ifs <;> omega
  · have hprev : dt.previous_row =
        { dt with
          state := dt.state.select (some (if i = 0 then dt.get_current_page_rows.length - 1
            else i - 1))
          vertical_scroll_state := dt.vertical_scroll_state.setPosition
            ((if i = 0 then dt.get_current_page_rows.length - 1 else i - 1) * ITEM_HEIGHT) } := by
      simp only [DataTable.previous_row, hne, Bool.false_eq_true, if_false, hsel]
      cases i with
      | zero => simp
      | succ k => simp
    rw [hprev]
    refine ⟨rfl, rfl, rfl, rfl, ?_⟩
    simp [TableState.select]

/-- C5 witness: in a 3-row grid (one page), stepping from row 0 goes to
row 1, and stepping back from row 0 wraps to the last row, with the page
unchanged. -/
theorem row_navigation_within_page_witness :
    dt3.data.is_empty = false ∧ dt3.state.selected = some 0 ∧
    0 < dt3.get_current_page_rows.length ∧
    dt3.next_row.current_page = dt3.current_page ∧
    dt3.next_row.state.selected = some 1 ∧
    dt3.previous_row.state.selected = some 2 := by
  have h := row_navigation_within_page dt3 0 (by decide) (by decide) (by decide)
  refine ⟨by decide, by decide, by decide, h.1.1, h.1.2.2.2.2.trans (by decide),
    h.2.2.2.2.2.trans (by decide)⟩

/-! ## Claim C6 — navigation on an empty result set (corrected)

Most navigation is indeed a no-op on an empty result set, but not all of
it: `next_column`/`previous_column` forward to the `ratatui` table state
without consulting the data at all and move the column selection, and
`scroll_right` consults `column_widths`, which is non-empty whenever the
headers are (a query can return headers and zero rows, which still counts
as empty). -/

/-- C6 counterexample: on the startup-empty grid, `next_column` and
`previous_column` both change the selection state (to column 0 and to the
`usize::MAX` saturation value respectively); and on a headers-but-no-rows
grid (`is_empty` holds), `scroll_right` changes the horizontal scroll
offset. -/
theorem empty_grid_navigation_counterexample :
    dtEmpty.data.is_empty = true ∧
    dtEmpty.state.selected_column = none ∧
    dtEmpty.next_column.state.selected_column = some 0 ∧
    dtEmpty.previous_column.state.selected_column = some USIZE_MAX ∧
    dtEmpty.previous_column.state.selected_column ≠ dtEmpty.state.selected_column ∧
    dtHeadersOnly.data.is_empty = true ∧
    dtHeadersOnly.horizontal_scroll = 0 ∧
    dtHeadersOnly.scroll_right.horizontal_scroll = 1 := by
  refine ⟨by decide, by decide, ?_, ?_, ?_, by decide, by decide, ?_⟩ <;>
    decide

/-- C6 (amended): when the result set is empty, `next_row`, `previous_row`,
`jump_to_absolute_row` and `next_page` are no-ops on the whole grid state;
`previous_page` is a no-op from page 0 and `scroll_left` from horizontal
offset 0 (the only reachable empty-grid states); `scroll_right` is a no-op
when at most one column width exists (in particular when the headers are
empty); but `next_column` and `previous_column` still move the column
selection — from no selection they select column 0 and `usize::MAX`
respectively, and from column `i` they step to `i + 1` (saturating) and
`i − 1`. -/
theorem empty_grid_navigation_noops (dt : DataTable) (n : Nat)
    (he : dt.data.is_empty = true) :
    dt.next_row = dt ∧
    dt.previous_row = dt ∧
    dt.jump_to_absolute_row n = dt ∧
    dt.next_page = dt ∧
    (dt.current_page = 0 → dt.previous_page = dt) ∧
    (dt.horizontal_scroll = 0 → dt.scroll_left = dt) ∧
    (dt.data.column_widths.length ≤ 1 → dt.scroll_right = dt) ∧
    (dt.state.selected_column = none → dt.next_column.state.selected_column = some 0) ∧
    (dt.state.selected_column = none →
      dt.previous_column.state.selected_column = some USIZE_MAX) ∧
    (∀ i, dt.state.selected_column = some i →
      dt.next_column.state.selected_column = some (min (i + 1) USIZE_MAX) ∧
      dt.previous_column.state.selected_column = some (i - 1)) := by
  refine ⟨?_, ?_, ?_, ?_, ?_, ?_, ?_, ?_, ?_, ?_⟩
  · simp [DataTable.next_row, DataTable.is_empty, he]
  · simp [DataTable.previous_row, he]
  · simp [DataTable.jump_to_absolute_row, he]
  · have h1 : dt.total_pages = 1 := by simp [DataTable.total_pages, he]
    simp [DataTable.next_page, h1]
  · intro h0
    simp [DataTable.previous_page, h0]
  · intro h0
    simp [DataTable.scroll_left, h0]
  · intro h1
    have : ¬ dt.horizontal_scroll < dt.data.column_widths.length - 1 := by omega
    simp [DataTable.scroll_right, this]
  · intro hc
    simp [DataTable.next_column, TableState.select_next_column, hc]
  · intro hc
    simp [DataTable.previous_column, TableState.select_previous_column, hc]
  · intro i hc
    constructor
    · simp [DataTable.next_column, TableState.select_next_column, hc]
    · simp [DataTable.previous_column, TableState.select_previous_column, hc]

/-- C6 witness: the amended statement evaluated on the startup-empty
grid, including that `next_column` and `previous_column` do move the
column selection there. -/
theorem empty_grid_navigation_noops_witness :
    dtEmpty.data.is_empty = true ∧
    dtEmpty.next_row = dtEmpty ∧ dtEmpty.previous_row = dtEmpty ∧
    dtEmpty.jump_to_absolute_row 7 = dtEmpty ∧ dtEmpty.next_page = dtEmpty ∧
    dtEmpty.previous_page = dtEmpty ∧ dtEmpty.scroll_left = dtEmpty ∧
    dtEmpty.scroll_right = dtEmpty ∧
    dtEmpty.next_column.state.selected_column = some 0 ∧
    dtEmpty.previous_column.state.selected_column = some USIZE_MAX := by
  have h := empty_grid_navigation_noops dtEmpty 7 (by decide)
  exact ⟨by decide, h.1, h.2.1, h.2.2.1, h.2.2.2.1, h.2.2.2.2.1 (by decide),
    h.2.2.2.2.2.1 (by decide), h.2.2.2.2.2.2.1 (by decide),
    h.2.2.2.2.2.2.2.1 (by decide), h.2.2.2.2.2.2.2.2.1 (by decide)⟩

/-! ## Claim C7 — `copy_selected_row` aborts on arity mismatch -/

/-- C7: whenever the selected row's cell count differs from the header
count, `copy_selected_row` returns `none`, attempts no clipboard write,
and leaves the grid state unchanged (the first component of the model
triple; the Rust receiver is `&self`). -/
theorem copy_selected_row_mismatch_aborts (dt : DataTable) (i : Nat)
    (row : List String)
    (hsel : dt.state.selected = some i)
    (hrow : dt.data.rows.get? (dt.current_page * dt.page_size + i) = some row)
    (hmis : dt.data.headers.length ≠ row.length) :
    dt.copy_selected_row = (dt, none, []) := by
  unfold DataTable.copy_selected_row
  rw [hsel]
  simp only [hrow]
  rw [if_pos hmis]

/-- C7 witness: headers `["a","b"]` against the single-cell row `["1"]`. -/
theorem copy_selected_row_mismatch_aborts_witness :
    dtMismatch.state.selected = some 0 ∧
    dtMismatch.data.rows.get? (dtMismatch.current_page * dtMismatch.page_size + 0) =
      some ["1"] ∧
    dtMismatch.data.headers.length ≠ (["1"] : List String).length ∧
    dtMismatch.copy_selected_row = (dtMismatch, none, []) := by
  refine ⟨by decide, by decide, by decide, ?_⟩
  exact copy_selected_row_mismatch_aborts dtMismatch 0 ["1"] (by decide) (by decide) (by decide)

/-! ## Claim C9 — which column `adjust_column_width` resizes (corrected)

`copy_selected_cell` resolves the on-screen selection to a data column as
`selected_column − 1 + horizontal_scroll` (skipping the leading row-number
pseudo-column); but `DataTable::adjust_column_width` forwards the *raw*
`selected_column` index with no such adjustment, so the two disagree
whenever a data cell is selected. -/

/-- C9 counterexample: with on-screen column 1 selected and no horizontal
scroll, `copy_selected_cell` resolves to data column 0 (the cell `"x"`),
but `adjust_column_width(1)` widens data column 1 (widths `[3,4] → [3,5]`),
not column 0 (`[4,4]`) as the claim predicts. -/
theorem adjust_column_width_raw_index_counterexample :
    c9grid.state.selected_column = some 1 ∧
    c9grid.horizontal_scroll = 0 ∧
    c9grid.copy_selected_cell.2.1 = some "x" ∧
    c9grid.data.column_widths = [3, 4] ∧
    (c9grid.adjust_column_width 1).data.column_widths = [3, 5] ∧
    ¬ (c9grid.adjust_column_width 1).data.column_widths = [4, 4] := by
  exact ⟨by decide, by decide, by decide, by decide, by decide, by decide⟩

/-- C9 (amended): with on-screen column `c` selected,
`adjust_column_width(delta)` resizes `column_widths[c]` — the *raw*
selected index, counting the row-number pseudo-column and ignoring the
horizontal scroll, hence *not* the data column `copy_selected_cell`
resolves to — leaving every other display width, all minimum widths, and
the rest of the grid state unchanged; the new width is the old width plus
delta clamped below at that column's minimum (exactly, under the source's
16-bit casts); out-of-range `c` or no selected column changes nothing. -/
theorem adjust_column_width_selected_raw_index (dt : DataTable) (c : Nat) (δ : Int)
    (hsel : dt.state.selected_column = some c) :
    (dt.adjust_column_width δ).data.min_column_widths = dt.data.min_column_widths ∧
    (dt.adjust_column_width δ).data.headers = dt.data.headers ∧
    (dt.adjust_column_width δ).data.rows = dt.data.rows ∧
    (dt.adjust_column_width δ).state = dt.state ∧
    (dt.adjust_column_width δ).current_page = dt.current_page ∧
    (dt.adjust_column_width δ).horizontal_scroll = dt.horizontal_scroll ∧
    (∀ j, j ≠ c →
      (dt.adjust_column_width δ).data.column_widths.get? j =
        dt.data.column_widths.get? j) ∧
    (c < dt.data.column_widths.length →
      (dt.adjust_column_width δ).data.column_widths.get? c =
        some (u16OfI16 (max (wrapI16 (wrapI16 (dt.data.column_widths.getD c 0) + δ))
          (wrapI16 (dt.data.min_column_widths.getD c 0))))) ∧
    (c < dt.data.column_widths.length →
      dt.data.column_widths.getD c 0 < 32768 →
      dt.data.min_column_widths.getD c 0 < 32768 →
      -32768 ≤ (dt.data.column_widths.getD c 0 : Int) + δ →
      (dt.data.column_widths.getD c 0 : Int) + δ < 32768 →
      ∃ w : Nat, (dt.adjust_column_width δ).data.column_widths.get? c = some w ∧
        (w : Int) = max ((dt.data.column_widths.getD c 0 : Int) + δ)
          (dt.data.min_column_widths.getD c 0 : Int)) ∧
    (dt.data.column_widths.length ≤ c → dt.adjust_column_width δ = dt) ∧
    (∀ dt' : DataTable, dt'.state.selected_column = none →
      dt'.adjust_column_width δ = dt') := by
  have happ : dt.adjust_column_width δ =
      { dt with data := dt.data.adjust_column_width c δ } := by
    unfold DataTable.adjust_column_width
    rw [hsel]
  refine ⟨?_, ?_, ?_, ?_, ?_, ?_, ?_, ?_, ?_, ?_, ?_⟩
  · rw [happ]
    unfold DynamicData.adjust_column_width
    split <;> rfl
  · rw [happ]
    unfold DynamicData.adjust_column_width
    split <;> rfl
  · rw [happ]
    unfold DynamicData.adjust_column_width
    split <;> rfl
  · rw [happ]
  · rw [happ]
  · rw [happ]
  · intro j hj
    rw [happ]
    unfold DynamicData.adjust_column_width
    split
    · exact List.get?_set_ne _ _ (fun h => hj h.symm)
    · rfl
  · intro hc
    rw [happ]
    unfold DynamicData.adjust_column_width
    rw [if_pos hc]
    exact List.get?_set_eq_of_lt _ hc
  · intro hc hw hm hlb hub
    rw [happ]
    unfold DynamicData.adjust_column_width
    rw [if_pos hc]
    refine ⟨_, List.get?_set_eq_of_lt _ hc, ?_⟩
    have e1 : wrapI16 (dt.data.column_widths.getD c 0) =
        (dt.data.column_widths.getD c 0 : Int) := by
      apply wrapI16_of_range <;> omega
    have e2 : wrapI16 (dt.data.min_column_widths.getD c 0) =
        (dt.data.min_column_widths.getD c 0 : Int) := by
      apply wrapI16_of_range <;> omega
    rw [e1, e2]
    have e3 : wrapI16 ((dt.data.column_widths.getD c 0 : Int) + δ) =
        (dt.data.column_widths.getD c 0 : Int) + δ := by
      apply wrapI16_of_range <;> omega
    rw [e3]
    apply u16OfI16_of_range
    · apply le_max_of_le_right
      omega
    · apply max_lt <;> omega
  · intro hc
    rw [happ]
    unfold DynamicData.adjust_column_width
    rw [if_neg (by omega)]
  · intro dt' h0
    unfold DataTable.adjust_column_width
    rw [h0]

/-- C9 witness: the amended statement evaluated on the two-column grid with
column 1 selected: widths go `[3,4] → [3,5]` (delta 1 applied at the raw
index, minimums unchanged). -/
theorem adjust_column_width_selected_raw_index_witness :
    c9grid.state.selected_column = some 1 ∧
    (c9grid.adjust_column_width 1).data.min_column_widths =
      c9grid.data.min_column_widths ∧
    (c9grid.adjust_column_width 1).data.column_widths.get? 0 =
      c9grid.data.column_widths.get? 0 ∧
    (c9grid.adjust_column_width 1).data.column_widths.get? 1 = some 5 := by
  have h := adjust_column_width_selected_raw_index c9grid 1 1 (by decide)
  refine ⟨by decide, h.1, h.2.2.2.2.2.2.1 0 (by decide), ?_⟩
  have h8 := h.2.2.2.2.2.2.2.1 (by decide)
  rw [h8]
  decide

/-! ### Injectivity of `Nat.repr`

`copy_selected_cell` renders row numbers with `to_string`; to state that
the 1-based and 0-based renderings never coincide we prove `Nat.repr`
injective, by relating the fuelled core implementation `Nat.toDigitsCore`
to the structural digit list `digitsRec` and reading the value back. -/

theorem charVal_digitChar (d : Nat) (h : d < 10) :
    charVal (Nat.digitChar d) = d := by
  interval_cases d <;> decide

theorem toDigitsCore_eq_digitsRec (f : Nat) :
    ∀ (n : Nat) (l : List Char), n < 10 ^ f → 0 < f →
      Nat.toDigitsCore 10 f n l = digitsRec n ++ l := by
  induction f with
  | zero => intro n l _ h0; omega
  | succ f ih =>
    intro n l hn _
    by_cases hd : n / 10 = 0
    · have hn10 : n < 10 := (Nat.div_eq_zero_iff (by omega)).mp hd
      simp only [Nat.toDigitsCore, hd, if_true]
      rw [digitsRec, dif_pos hn10, Nat.mod_eq_of_lt hn10]
      rfl
    · have h10 : 10 ≤ n := by
        by_contra h
        push_neg at h
        exact hd (Nat.div_eq_of_lt h)
      have hf : 0 < f := by
        rcases Nat.eq_zero_or_pos f with h | h
        · subst h
          simp at hn
          omega
        · exact h
      have hdiv : n / 10 < 10 ^ f := by
        have hlt : n < 10 * 10 ^ f := by
          calc n < 10 ^ (f + 1) := hn
          _ = 10 * 10 ^ f := by ring
        omega
      simp only [Nat.toDigitsCore, hd, if_false]
      rw [ih (n / 10) (Nat.digitChar (n % 10) :: l) hdiv hf]
      conv_rhs => rw [digitsRec, dif_neg (by omega : ¬ n < 10)]
      simp

theorem repr_eq_digitsRec (n : Nat) : Nat.repr n = (digitsRec n).asString := by
  have h1 : n < 10 ^ (n + 1) := by
    calc n < 2 ^ n := Nat.lt_two_pow n
    _ ≤ 10 ^ n := Nat.pow_le_pow_left (by omega) n
    _ ≤ 10 ^ (n + 1) := Nat.pow_le_pow_right (by omega) (by omega)
  unfold Nat.repr Nat.toDigits
  rw [toDigitsCore_eq_digitsRec (n + 1) n [] h1 (Nat.succ_pos n)]
  simp

theorem digitsRec_val (n : Nat) : ∀ a : Nat,
    (digitsRec n).foldl (fun x c => 10 * x + charVal c) a =
      a * 10 ^ (digitsRec n).length + n := by
  induction n using Nat.strong_induction_on with
  | _ n ih =>
    intro a
    by_cases h : n < 10
    · rw [digitsRec, dif_pos h]
      simp only [List.foldl, List.length_singleton]
      rw [charVal_digitChar n h]
      ring
    · rw [digitsRec, dif_neg h]
      rw [List.foldl_append]
      rw [ih (n / 10) (Nat.div_lt_self (by omega) (by omega)) a]
      simp only [List.foldl, List.length_append, List.length_singleton]
      rw [charVal_digitChar (n % 10) (Nat.mod_lt n (by omega))]
      calc 10 * (a * 10 ^ (digitsRec (n / 10)).length + n / 10) + n % 10
          = 10 * (a * 10 ^ (digitsRec (n / 10)).length) + (10 * (n / 10) + n % 10) := by
            ring
        _ = 10 * (a * 10 ^ (digitsRec (n / 10)).length) + n := by
            rw [Nat.div_add_mod]
        _ = a * 10 ^ ((digitsRec (n / 10)).length + 1) + n := by
            ring

theorem natRepr_injective : Function.Injective Nat.repr := by
  intro m n h
  rw [repr_eq_digitsRec, repr_eq_digitsRec] at h
  have hlist : digitsRec m = digitsRec n := by
    have := congrArg String.data h
    simpa [List.asString] using this
  have hm := digitsRec_val m 0
  have hn := digitsRec_val n 0
  rw [hlist] at hm
  rw [hm] at hn
  omega

/-! ## Claim C10 — the row-number pseudo-column copies the 1-based number -/

/-- C10: with a row selected and the row-number pseudo-column (index 0)
selected, and the absolute index `page * page_size + r` within the row
count, `copy_selected_cell` returns (and writes to the clipboard) exactly
the decimal rendering of the 1-based absolute row number
`page * page_size + r + 1` — the same number `render_table` shows in the
leading `#` column — and never the 0-based index (the two renderings
always differ, `Nat.repr` being injective). -/
theorem copy_selected_cell_row_number (dt : DataTable) (r : Nat)
    (hsel : dt.state.selected = some r)
    (hcol : dt.state.selected_column = some 0)
    (habs : dt.current_page * dt.page_size + r < dt.data.rows.length) :
    dt.copy_selected_cell =
      (dt, some (Nat.repr (dt.render_absolute_row_number r)),
        [Nat.repr (dt.render_absolute_row_number r)]) ∧
    dt.render_absolute_row_number r = dt.current_page * dt.page_size + r + 1 ∧
    Nat.repr (dt.current_page * dt.page_size + r + 1) ≠
      Nat.repr (dt.current_page * dt.page_size + r) := by
  have hrow := List.get?_eq_get habs
  refine ⟨?_, rfl, ?_⟩
  · unfold DataTable.copy_selected_cell
    rw [hsel, hcol]
    simp only [hrow]
    simp [DataTable.render_absolute_row_number]
  · intro h
    have := natRepr_injective h
    omega

/-- C10 witness: on the two-row grid with the pseudo-column selected and
row 0 selected, the copied text is `"1"`, not `"0"`. -/
theorem copy_selected_cell_row_number_witness :
    c10grid.state.selected = some 0 ∧
    c10grid.state.selected_column = some 0 ∧
    c10grid.current_page * c10grid.page_size + 0 < c10grid.data.rows.length ∧
    c10grid.copy_selected_cell.2.1 = some "1" ∧
    Nat.repr (c10grid.render_absolute_row_number 0) = "1" := by
  have h := copy_selected_cell_row_number c10grid 0 (by decide) (by decide) (by decide)
  refine ⟨by decide, by decide, by decide, ?_, by decide⟩
  rw [h.1]
  decide

end LazyData
